import Mathlib

/-!
Shallow embedding of the KPI performance-evaluation and alerting core of the
logicLeague dashboard (src/server/services/analyticsService.ts,
src/server/storage.ts, src/server/routes.ts).

Numeric values are modelled as rationals; every concrete value appearing in
the claims is exactly representable, and the comparisons and linear
arithmetic the code performs coincide with exact rational arithmetic on
those inputs.  Timestamps are modelled as naturals, identities as strings.
-/

namespace LogicLeague

/-- Red/amber/green threshold triple of a Target, percent-of-target cutoffs
(shared/schema.ts `targets.threshold`). -/
structure Threshold where
  green : ℚ
  amber : ℚ
  red : ℚ
deriving Repr, DecidableEq

/-- Alert severities (shared/schema.ts `alerts.severity`). -/
inductive Severity
  | low
  | medium
  | high
  | critical
deriving Repr, DecidableEq

/-- Alert types created by the analytics service. -/
inductive AlertType
  | threshold_breach
  | target_exceeded
  | anomaly_detected
  | overdue_submission
deriving Repr, DecidableEq

/-- The fields of an Alert row relevant to the claims (shared/schema.ts
`alerts`); title/description wording is a presentation concern and is not
modelled. -/
structure Alert where
  type : AlertType
  severity : Severity
  kpiId : String
  departmentId : String
  isRead : Bool
  isResolved : Bool
  resolvedBy : Option String
  resolvedAt : Option Nat
deriving Repr, DecidableEq

/-- The fields of a KPI row the analytics service reads. -/
structure KPIRec where
  id : String
  departmentId : String
deriving Repr, DecidableEq

/-- The fields of a Target row the analytics service reads
(`target.targetValue`, `target.threshold`). -/
structure TargetRec where
  targetValue : ℚ
  threshold : Threshold
deriving Repr, DecidableEq

/-- `Math.round x` of JavaScript: round half toward positive infinity. -/
def jsRound (x : ℚ) : ℤ := ⌊x + 1 / 2⌋

/-- `Math.round (x * 100) / 100`, the two-decimal rounding used for
confidences and projected outcomes. -/
def round2 (x : ℚ) : ℚ := (jsRound (x * 100) : ℚ) / 100

/-! ### Alert Engine: checkThresholds (analyticsService.ts lines 172-227) -/

/-- The alert decision of `checkThresholds` (lines 192-208): first match wins
among the red breach, the amber breach and the target-exceeded checks; no
match means no alert. -/
def checkThresholdsDecision (actualValue : ℚ) (th : Threshold) (targetValue : ℚ) :
    Option (AlertType × Severity) :=
  if actualValue < th.red * targetValue / 100 then
    some (.threshold_breach, .critical)
  else if actualValue < th.amber * targetValue / 100 then
    some (.threshold_breach, .high)
  else if actualValue > targetValue * 1.1 then
    some (.target_exceeded, .low)
  else
    none

/-- The InsertAlert record built by `checkThresholds` (lines 211-220):
`isRead` and `isResolved` are passed as `false`; `resolvedBy`/`resolvedAt`
take the schema defaults (null). -/
def mkThresholdAlert (kpiId departmentId : String) (t : AlertType) (s : Severity) : Alert :=
  { type := t
    severity := s
    kpiId := kpiId
    departmentId := departmentId
    isRead := false
    isResolved := false
    resolvedBy := none
    resolvedAt := none }

/-- The body of the `try` block of `checkThresholds`: a missing KPI or an
empty target list returns without evaluating; otherwise the decision is
taken on `targets[0]` and, when an alert fires, `storage.createAlert` either
appends the alert or raises (`storeOk = false` models an unavailable Alert
Store). -/
def checkThresholdsBody (kpi? : Option KPIRec) (targets : List TargetRec)
    (actualValue : ℚ) (storeOk : Bool) (alerts : List Alert) :
    Except String (List Alert) :=
  match kpi? with
  | none => .ok alerts
  | some kpi =>
    match targets with
    | [] => .ok alerts
    | target :: _ =>
      match checkThresholdsDecision actualValue target.threshold target.targetValue with
      | none => .ok alerts
      | some (t, s) =>
        if storeOk then .ok (alerts ++ [mkThresholdAlert kpi.id kpi.departmentId t s])
        else .error "alert store unavailable"

/-- `checkThresholds` as the caller observes it: the whole body sits in a
`try`/`catch` whose catch clause only logs (lines 224-226), so an error from
`createAlert` is swallowed and the function returns normally with no alert
persisted. -/
def checkThresholdsRun (kpi? : Option KPIRec) (targets : List TargetRec)
    (actualValue : ℚ) (storeOk : Bool) (alerts : List Alert) :
    Except String (List Alert) :=
  match checkThresholdsBody kpi? targets actualValue storeOk alerts with
  | .ok l => .ok l
  | .error _ => .ok alerts

/-- Rank of a `checkThresholdsDecision` outcome on the worst-to-best scale:
critical breach, high breach, in band (no alert), target exceeded. -/
def decisionRank : Option (AlertType × Severity) → ℕ
  | some (.threshold_breach, .critical) => 0
  | some (.threshold_breach, _) => 1
  | none => 2
  | some (_, _) => 3

/-! ### Scenario Engine: runScenarioTest (analyticsService.ts lines 109-170) -/

/-- Impact classification of a scenario. -/
inductive Impact
  | positive
  | negative
  | neutral
deriving Repr, DecidableEq

/-- Line 124: `changePercent = currentValue > 0 ? ((inputValue - currentValue)
/ currentValue) * 100 : 0`. -/
def scenarioChangePercent (currentValue inputValue : ℚ) : ℚ :=
  if currentValue > 0 then (inputValue - currentValue) / currentValue * 100 else 0

/-- One entry of the `scenarios` array returned by `runScenarioTest`
(the `name` field is a presentation concern and is not modelled). -/
structure ScenarioOutcome where
  inputValue : ℚ
  projectedOutcome : ℚ
  impact : Impact
  confidence : ℚ
deriving Repr, DecidableEq

/-- Lines 122-141 of `runScenarioTest`, for one scenario entry:
`projectedOutcome = inputValue * (1 + changePercent * 0.1)` rounded to two
decimals, impact classified against the ±5 cutoffs, confidence
`max 0.5 (1 - |changePercent| / 100)` rounded to two decimals. -/
def runScenarioOne (currentValue inputValue : ℚ) : ScenarioOutcome :=
  let changePercent := scenarioChangePercent currentValue inputValue
  let projectedOutcome := inputValue * (1 + changePercent * 0.1)
  let impact : Impact :=
    if changePercent > 5 then .positive
    else if changePercent < -5 then .negative
    else .neutral
  let confidence := max 0.5 (1 - |changePercent| / 100)
  { inputValue := inputValue
    projectedOutcome := round2 projectedOutcome
    impact := impact
    confidence := round2 confidence }

/-! ### Forecast Engine: generateForecast (analyticsService.ts lines 27-107) -/

/-- Qualitative trend label. -/
inductive Trend
  | increasing
  | decreasing
  | stable
deriving Repr, DecidableEq

/-- `sumX` of the regression (line 55): the sum of the point indices. -/
def forecastSumX (values : List ℚ) : ℚ :=
  ((List.range values.length).map fun i => (i : ℚ)).sum

/-- `sumY` of the regression (line 56): the sum of the historical values. -/
def forecastSumY (values : List ℚ) : ℚ := values.sum

/-- `sumXY` of the regression (line 57). -/
def forecastSumXY (values : List ℚ) : ℚ :=
  (values.enum.map fun p => (p.1 : ℚ) * p.2).sum

/-- `sumXX` of the regression (line 58). -/
def forecastSumXX (values : List ℚ) : ℚ :=
  ((List.range values.length).map fun i => (i : ℚ) * (i : ℚ)).sum

/-- Closed-form least-squares slope (line 60). -/
def forecastSlope (values : List ℚ) : ℚ :=
  let n : ℚ := values.length
  (n * forecastSumXY values - forecastSumX values * forecastSumY values) /
    (n * forecastSumXX values - forecastSumX values * forecastSumX values)

/-- Closed-form least-squares intercept (line 61). -/
def forecastIntercept (values : List ℚ) : ℚ :=
  (forecastSumY values - forecastSlope values * forecastSumX values) / values.length

/-- One forecast point (`period` is wall-clock presentation and is not
modelled). -/
structure ForecastPoint where
  predictedValue : ℚ
  confidence : ℚ
deriving Repr, DecidableEq

/-- Lines 64-80: the 4 forecast points; point `i` evaluates the fitted line
at `nextIndex = length + i`, clamps the prediction at 0, and carries
confidence `max 0.6 (1 - i * 0.1)` rounded to two decimals. -/
def forecastPoints (values : List ℚ) : List ForecastPoint :=
  (List.range 4).map fun i =>
    let nextIndex : ℚ := (values.length : ℚ) + (i : ℚ)
    let predictedValue := forecastIntercept values + forecastSlope values * nextIndex
    let confidence := max 0.6 (1 - (i : ℚ) * 0.1)
    { predictedValue := max 0 predictedValue
      confidence := round2 confidence }

/-- Lines 83-85: trend label from the fitted slope. -/
def forecastTrend (values : List ℚ) : Trend :=
  if forecastSlope values > 0.5 then .increasing
  else if forecastSlope values < -0.5 then .decreasing
  else .stable

/-! ### Anomaly Detector: detectAnomalies (analyticsService.ts lines 229-280) -/

/-- `historicalData.slice(-1)[0]`: the most recent point of the series. -/
def anomalyRecent (xs : List ℚ) : ℚ := (xs.getLast?).getD 0

/-- `historicalData.slice(-3, -1)`: the two points immediately preceding the
last one (for a series of length at least 3). -/
def anomalyPrevious (xs : List ℚ) : List ℚ := (xs.drop (xs.length - 3)).take 2

/-- `avgPrevious` (line 253): mean of the baseline. -/
def anomalyMean (xs : List ℚ) : ℚ :=
  (anomalyPrevious xs).sum / ((anomalyPrevious xs).length : ℚ)

/-- The population variance of the baseline; the code (line 254) takes
`stdDev = Math.sqrt` of this quantity. -/
def anomalyVariance (xs : List ℚ) : ℚ :=
  ((anomalyPrevious xs).map fun v => (v - anomalyMean xs) ^ 2).sum /
    ((anomalyPrevious xs).length : ℚ)

/-- The boolean computed by `detectAnomalies` over the per-period series
(lines 246-257).  The code compares `|recent - avgPrevious| > 2 * stdDev`
with `stdDev = sqrt variance`; both sides are nonnegative, so this is
decided here by the equivalent square-free comparison
`(recent - avgPrevious)^2 > 4 * variance` (the equivalence is proved below
against the square-root form). -/
def detectAnomalySeries (xs : List ℚ) : Bool :=
  if xs.length < 3 then false
  else if (anomalyPrevious xs).length = 0 then false
  else if (anomalyRecent xs - anomalyMean xs) ^ 2 > 4 * anomalyVariance xs then true
  else false

/-- The anomaly alert built at lines 262-271: type `anomaly_detected`,
severity `medium`, unread and unresolved. -/
def mkAnomalyAlert (kpi : KPIRec) : Alert :=
  { type := .anomaly_detected
    severity := .medium
    kpiId := kpi.id
    departmentId := kpi.departmentId
    isRead := false
    isResolved := false
    resolvedBy := none
    resolvedAt := none }

/-- `detectAnomalies` as a store operation: the boolean is computed from the
series; when it is `true` the KPI is looked up and, only if the lookup
succeeds, the anomaly alert is persisted (lines 259-275); the boolean is
returned either way. -/
def detectAnomaliesRun (kpi? : Option KPIRec) (series : List ℚ) (alerts : List Alert) :
    Bool × List Alert :=
  let isAnomaly := detectAnomalySeries series
  if isAnomaly then
    match kpi? with
    | some kpi => (isAnomaly, alerts ++ [mkAnomalyAlert kpi])
    | none => (isAnomaly, alerts)
  else (isAnomaly, alerts)

/-! ### Aggregation Layer: getDepartmentPerformance (storage.ts lines 307-320) -/

/-- Status band used by the department-performance rows. -/
inductive Band
  | green
  | amber
  | red
deriving Repr, DecidableEq

/-- The fields of a Department row read by `getDepartmentPerformance`. -/
structure DeptRec where
  id : String
  name : String
  code : String
deriving Repr, DecidableEq

/-- One row of the department-performance response. -/
structure DeptPerformance where
  id : String
  name : String
  code : String
  score : ℤ
  status : Band
  kpiCount : ℤ
  trend : ℤ
deriving Repr, DecidableEq

/-- The `Math.random()` results consumed while building one department's row
(each call returns a value in `[0, 1)`); the second status draw is only
consumed when the first is at most `0.7`, and supplying it unconditionally
does not change the computed row. -/
structure RandomDraws where
  scoreDraw : ℚ
  statusDraw1 : ℚ
  statusDraw2 : ℚ
  kpiCountDraw : ℚ
  trendDraw : ℚ
deriving Repr, DecidableEq

/-- Lines 311-319: the row built for one department; every numeric field is
derived from `Math.random()`, not from stored KPI data. -/
def perfOfDept (dept : DeptRec) (r : RandomDraws) : DeptPerformance :=
  { id := dept.id
    name := dept.name
    code := dept.code
    score := ⌊r.scoreDraw * 40⌋ + 60
    status :=
      if r.statusDraw1 > 0.7 then .green
      else if r.statusDraw2 > 0.4 then .amber
      else .red
    kpiCount := ⌊r.kpiCountDraw * 15⌋ + 10
    trend := ⌊r.trendDraw * 20⌋ - 10 }

/-- `getDepartmentPerformance` (lines 307-320): maps the active departments
through `perfOfDept`; `rnd i` supplies the `Math.random()` draws consumed
for the `i`-th department. -/
def getDepartmentPerformance (rnd : ℕ → RandomDraws) (depts : List DeptRec) :
    List DeptPerformance :=
  depts.enum.map fun p => perfOfDept p.2 (rnd p.1)

/-! ### Alert update route: PATCH /api/alerts/:id (routes.ts lines 358-377) -/

/-- The request-body fields the route destructures; `none` models a field
absent from the JSON body. -/
structure PatchBody where
  isRead : Option Bool
  isResolved : Option Bool
deriving Repr, DecidableEq

/-- The `updates` object assembled at lines 363-369: a field is placed in the
update exactly when the corresponding body field is present
(`!== undefined`); whenever `isResolved` is present — whatever its boolean
value — `resolvedBy` and `resolvedAt` are also placed in the update. -/
structure AlertUpdate where
  isRead : Option Bool
  isResolved : Option Bool
  resolvedBy : Option String
  resolvedAt : Option Nat
deriving Repr, DecidableEq

/-- Lines 363-369 of the PATCH handler. -/
def patchAlertUpdates (body : PatchBody) (userId : String) (now : Nat) : AlertUpdate :=
  { isRead := body.isRead
    isResolved := body.isResolved
    resolvedBy := if body.isResolved.isSome then some userId else none
    resolvedAt := if body.isResolved.isSome then some now else none }

/-- `storage.updateAlert` (storage.ts lines 377-384): `db.update(...).set`
overwrites exactly the columns present in the update object and leaves the
others unchanged. -/
def applyAlertUpdate (a : Alert) (u : AlertUpdate) : Alert :=
  { a with
    isRead := u.isRead.getD a.isRead
    isResolved := u.isResolved.getD a.isResolved
    resolvedBy := match u.resolvedBy with | some v => some v | none => a.resolvedBy
    resolvedAt := match u.resolvedAt with | some v => some v | none => a.resolvedAt }

/-- The full PATCH handler applied to a stored alert. -/
def patchAlert (a : Alert) (body : PatchBody) (userId : String) (now : Nat) : Alert :=
  applyAlertUpdate a (patchAlertUpdates body userId now)

/-- Marking an alert read: a PATCH whose body carries only `isRead: true`. -/
def markRead (a : Alert) (userId : String) (now : Nat) : Alert :=
  patchAlert a { isRead := some true, isResolved := none } userId now

/-- Marking an alert resolved: a PATCH whose body carries only
`isResolved: true`. -/
def markResolved (a : Alert) (userId : String) (now : Nat) : Alert :=
  patchAlert a { isRead := none, isResolved := some true } userId now

/-- A concrete KPI used in the worked examples of the spec. -/
def kpi0 : KPIRec := { id := "kpi-1", departmentId := "dept-1" }

/-- The target of the spec's worked examples: target value 100 with
threshold triple green 80, amber 60, red 40. -/
def target0 : TargetRec := { targetValue := 100, threshold := ⟨80, 60, 40⟩ }

/-! ### Shared helper lemmas -/

/-- Comparing against twice a square root is equivalent to comparing the
squares: for `0 ≤ v`, `2 * sqrt v < |x|` iff `4 * v < x ^ 2`. -/
lemma two_sqrt_lt_abs_iff {v x : ℝ} (hv : 0 ≤ v) : 2 * Real.sqrt v < |x| ↔ 4 * v < x ^ 2 := by
  rcases eq_or_ne x 0 with rfl | hx
  · rw [abs_zero]
    exact iff_of_false (not_lt.2 (by positivity)) (by nlinarith)
  · have hx' : 0 < |x| := abs_pos.2 hx
    have h4 : Real.sqrt (4 * v) = 2 * Real.sqrt v := by
      rw [show (4 : ℝ) * v = 2 ^ 2 * v by ring, Real.sqrt_mul (by positivity) v,
        Real.sqrt_sq (by norm_num)]
    rw [← h4, Real.sqrt_lt' hx', sq_abs]

/-- A series of length at least 3 has a baseline of exactly 2 points. -/
lemma anomalyPrevious_length {xs : List ℚ} (h : 3 ≤ xs.length) :
    (anomalyPrevious xs).length = 2 := by
  simp only [anomalyPrevious, List.length_take, List.length_drop]
  omega

/-- The baseline population variance is nonnegative. -/
lemma anomalyVariance_nonneg (xs : List ℚ) : 0 ≤ anomalyVariance xs := by
  unfold anomalyVariance
  apply div_nonneg
  · apply List.sum_nonneg
    intro x hx
    simp only [List.mem_map] at hx
    obtain ⟨v, _, rfl⟩ := hx
    positivity
  · positivity

/-- The fitted slope on the exact linear series `[10, 20, 30, 40]` is 10. -/
lemma forecastSlope_linear : forecastSlope [10, 20, 30, 40] = 10 := by
  rw [forecastSlope, forecastSumX, forecastSumY, forecastSumXY, forecastSumXX,
    show List.range ([10, 20, 30, 40] : List ℚ).length = [0, 1, 2, 3] from rfl,
    show ([10, 20, 30, 40] : List ℚ).enum = [(0, 10), (1, 20), (2, 30), (3, 40)] from rfl]
  norm_num

/-- The fitted intercept on the exact linear series `[10, 20, 30, 40]` is 10. -/
lemma forecastIntercept_linear : forecastIntercept [10, 20, 30, 40] = 10 := by
  rw [forecastIntercept, forecastSlope, forecastSumX, forecastSumY, forecastSumXY, forecastSumXX,
    show List.range ([10, 20, 30, 40] : List ℚ).length = [0, 1, 2, 3] from rfl,
    show ([10, 20, 30, 40] : List ℚ).enum = [(0, 10), (1, 20), (2, 30), (3, 40)] from rfl]
  norm_num

/-- Evaluating the alert decision at actual 30 against the worked-example
target: below the red cutoff 40, a critical threshold breach. -/
lemma decision_at_thirty :
    checkThresholdsDecision 30 ⟨80, 60, 40⟩ 100 = some (.threshold_breach, .critical) := by
  simp only [checkThresholdsDecision]
  norm_num

/-- Evaluating the alert decision at actual 70: not below the red cutoff 40,
not below the amber cutoff 60, not above 110, hence no alert. -/
lemma decision_at_seventy : checkThresholdsDecision 70 ⟨80, 60, 40⟩ 100 = none := by
  simp only [checkThresholdsDecision]
  norm_num

/-- Evaluating the alert decision at actual 115: above 110, a low-severity
target-exceeded alert. -/
lemma decision_at_oneFifteen :
    checkThresholdsDecision 115 ⟨80, 60, 40⟩ 100 = some (.target_exceeded, .low) := by
  simp only [checkThresholdsDecision]
  norm_num

/-- Evaluating the alert decision at actual 90: no cutoff matches. -/
lemma decision_at_ninety : checkThresholdsDecision 90 ⟨80, 60, 40⟩ 100 = none := by
  simp only [checkThresholdsDecision]
  norm_num

/-- The full threshold check at actual 30 persists exactly one critical
threshold-breach alert. -/
lemma run_at_thirty :
    checkThresholdsRun (some kpi0) [target0] 30 true [] =
      .ok [mkThresholdAlert "kpi-1" "dept-1" .threshold_breach .critical] := by
  rw [checkThresholdsRun, checkThresholdsBody, kpi0, target0, decision_at_thirty]
  rfl

/-- The full threshold check at actual 70 persists nothing. -/
lemma run_at_seventy : checkThresholdsRun (some kpi0) [target0] 70 true [] = .ok [] := by
  rw [checkThresholdsRun, checkThresholdsBody, kpi0, target0, decision_at_seventy]

/-- The full threshold check at actual 115 persists exactly one low-severity
target-exceeded alert. -/
lemma run_at_oneFifteen :
    checkThresholdsRun (some kpi0) [target0] 115 true [] =
      .ok [mkThresholdAlert "kpi-1" "dept-1" .target_exceeded .low] := by
  rw [checkThresholdsRun, checkThresholdsBody, kpi0, target0, decision_at_oneFifteen]
  rfl

/-- The full threshold check at actual 90 persists nothing. -/
lemma run_at_ninety : checkThresholdsRun (some kpi0) [target0] 90 true [] = .ok [] := by
  rw [checkThresholdsRun, checkThresholdsBody, kpi0, target0, decision_at_ninety]

/-- The series `[50, 52, 90]` is flagged anomalous: baseline mean 51,
variance 1, and `39 ^ 2 > 4`. -/
lemma anomalous_fifty_ninety : detectAnomalySeries [50, 52, 90] = true := by
  simp only [detectAnomalySeries, anomalyRecent, anomalyPrevious, anomalyMean, anomalyVariance]
  norm_num

/-- The series `[50, 51, 52]` is flagged anomalous by the code: baseline mean
50.5, variance 0.25, and `1.5 ^ 2 > 1`. -/
lemma anomalous_flat : detectAnomalySeries [50, 51, 52] = true := by
  simp only [detectAnomalySeries, anomalyRecent, anomalyPrevious, anomalyMean, anomalyVariance]
  norm_num

/-! ### Claim C1 -/

/-- Claim C1, counterexample: with threshold green 80 / amber 60 / red 40 and
target 100, an actual of 70 does not yield a high-severity threshold-breach
alert — 70 is not below the amber cutoff `60 * 100 / 100 = 60`, so the
decision is `none` and the engine persists nothing. -/
theorem c1_actual_seventy_counterexample :
    checkThresholdsDecision 70 ⟨80, 60, 40⟩ 100 ≠ some (.threshold_breach, .high) ∧
    checkThresholdsDecision 70 ⟨80, 60, 40⟩ 100 = none ∧
    checkThresholdsRun (some kpi0) [target0] 70 true [] = .ok [] :=
  ⟨by rw [decision_at_seventy]; exact fun h => Option.noConfusion h,
   decision_at_seventy, run_at_seventy⟩

/-- Claim C1 (amended): the Alert Engine decision follows the stated
first-match order (red breach, then amber breach, then target exceeded,
else nothing) and persists at most one alert per submission; with threshold
green 80 / amber 60 / red 40 and target 100, actual 30 yields exactly one
critical threshold-breach alert, actual 70 yields no alert, actual 115
yields exactly one low-severity target-exceeded alert, and actual 90 yields
no alert. -/
theorem c1_alert_engine_amended :
    (∀ (a t : ℚ) (th : Threshold),
      (a < th.red * t / 100 →
        checkThresholdsDecision a th t = some (.threshold_breach, .critical)) ∧
      (¬ a < th.red * t / 100 → a < th.amber * t / 100 →
        checkThresholdsDecision a th t = some (.threshold_breach, .high)) ∧
      (¬ a < th.red * t / 100 → ¬ a < th.amber * t / 100 → a > t * 1.1 →
        checkThresholdsDecision a th t = some (.target_exceeded, .low)) ∧
      (¬ a < th.red * t / 100 → ¬ a < th.amber * t / 100 → ¬ a > t * 1.1 →
        checkThresholdsDecision a th t = none)) ∧
    (∀ (kpi? : Option KPIRec) (targets : List TargetRec) (a : ℚ) (storeOk : Bool)
      (alerts l : List Alert),
      checkThresholdsRun kpi? targets a storeOk alerts = .ok l →
        l.length ≤ alerts.length + 1) ∧
    checkThresholdsRun (some kpi0) [target0] 30 true [] =
      .ok [mkThresholdAlert "kpi-1" "dept-1" .threshold_breach .critical] ∧
    checkThresholdsRun (some kpi0) [target0] 70 true [] = .ok [] ∧
    checkThresholdsRun (some kpi0) [target0] 115 true [] =
      .ok [mkThresholdAlert "kpi-1" "dept-1" .target_exceeded .low] ∧
    checkThresholdsRun (some kpi0) [target0] 90 true [] = .ok [] := by
  refine ⟨?_, ?_, run_at_thirty, run_at_seventy, run_at_oneFifteen, run_at_ninety⟩
  · intro a t th
    refine ⟨fun h1 => ?_, fun h1 h2 => ?_, fun h1 h2 h3 => ?_, fun h1 h2 h3 => ?_⟩
    · rw [checkThresholdsDecision, if_pos h1]
    · rw [checkThresholdsDecision, if_neg h1, if_pos h2]
    · rw [checkThresholdsDecision, if_neg h1, if_neg h2, if_pos h3]
    · rw [checkThresholdsDecision, if_neg h1, if_neg h2, if_neg h3]
  · intro kpi? targets a storeOk alerts l h
    rcases kpi? with _ | kpi
    · rw [checkThresholdsRun, checkThresholdsBody] at h
      cases h
      omega
    rcases targets with _ | ⟨tgt, rest⟩
    · rw [checkThresholdsRun, checkThresholdsBody] at h
      cases h
      omega
    rw [checkThresholdsRun, checkThresholdsBody] at h
    rcases hd : checkThresholdsDecision a tgt.threshold tgt.targetValue with _ | ⟨t, s⟩ <;>
      rw [hd] at h
    · cases h
      omega
    · rcases storeOk with _ | _ <;> simp at h
      · subst h
        omega
      · simp [← h]

/-- Claim C1, witness: the hypotheses of the amended theorem are satisfiable
at concrete inputs — 30 is below the red cutoff 40 and the concrete
successful run has one alert, within the at-most-one bound. -/
theorem c1_alert_engine_witness :
    checkThresholdsDecision 30 ⟨80, 60, 40⟩ 100 = some (.threshold_breach, .critical) ∧
    [mkThresholdAlert "kpi-1" "dept-1" .threshold_breach .critical].length ≤
      ([] : List Alert).length + 1 :=
  ⟨(c1_alert_engine_amended.1 30 100 ⟨80, 60, 40⟩).1 (by norm_num),
   c1_alert_engine_amended.2.1 (some kpi0) [target0] 30 true []
     [mkThresholdAlert "kpi-1" "dept-1" .threshold_breach .critical] run_at_thirty⟩

/-! ### Claim C2 -/

/-- Claim C2 (code bug): `getDepartmentPerformance` is not a deterministic
function of stored data — over the same single stored department, two
invocations whose `Math.random()` draws are 0 and 0.5 (both legal values in
`[0, 1)`) return composite scores 60 and 80 respectively, so the results
differ. -/
theorem c2_departmentPerformance_randomized :
    (getDepartmentPerformance (fun _ => ⟨0, 0, 0, 0, 0⟩)
        [⟨"d1", "Operations", "OPS"⟩]).map DeptPerformance.score = [60] ∧
    (getDepartmentPerformance (fun _ => ⟨1/2, 0, 0, 0, 0⟩)
        [⟨"d1", "Operations", "OPS"⟩]).map DeptPerformance.score = [80] ∧
    getDepartmentPerformance (fun _ => ⟨0, 0, 0, 0, 0⟩) [⟨"d1", "Operations", "OPS"⟩] ≠
      getDepartmentPerformance (fun _ => ⟨1/2, 0, 0, 0, 0⟩) [⟨"d1", "Operations", "OPS"⟩] ∧
    ((0 : ℚ) ≤ 0 ∧ (0 : ℚ) < 1 ∧ (0 : ℚ) ≤ 1/2 ∧ (1/2 : ℚ) < 1) := by
  refine ⟨?_, ?_, ?_, by norm_num⟩
  · simp only [getDepartmentPerformance, List.enum, perfOfDept, List.map]
    norm_num
  · simp only [getDepartmentPerformance, List.enum, perfOfDept, List.map]
    norm_num
  · simp only [getDepartmentPerformance, List.enum, perfOfDept]
    intro h
    simp only [List.map, List.cons.injEq] at h
    have := congrArg DeptPerformance.score h.1
    norm_num at this

/-! ### Claim C3 -/

/-- Claim C3, counterexample: with current value 100 and hypothetical input
120 the code computes `changePercent = 20` and then
`projectedOutcome = 120 * (1 + 20 * 0.1) = 360`, not 122.4 as the claim
states. -/
theorem c3_projected_counterexample :
    (runScenarioOne 100 120).projectedOutcome = 360 ∧
    (runScenarioOne 100 120).projectedOutcome ≠ 122.4 := by
  have h : (runScenarioOne 100 120).projectedOutcome = 360 := by
    simp only [runScenarioOne, scenarioChangePercent, round2, jsRound]
    norm_num
  exact ⟨h, by rw [h]; norm_num⟩

/-- Claim C3 (amended): with current-period actual 100 and hypothetical input
120, the Scenario Engine computes `changePercent = 20`, classifies the
impact as positive, and returns `projectedOutcome = 360`, consistently with
the stated formula `projectedOutcome = input * (1 + changePercent * 0.1)`
where `changePercent` is expressed in percent (so `120 * 3 = 360`). -/
theorem c3_scenario_amended :
    scenarioChangePercent 100 120 = 20 ∧
    (runScenarioOne 100 120).impact = .positive ∧
    (runScenarioOne 100 120).projectedOutcome = 360 ∧
    (runScenarioOne 100 120).projectedOutcome =
      120 * (1 + scenarioChangePercent 100 120 * 0.1) := by
  have hc : scenarioChangePercent 100 120 = 20 := by
    simp only [scenarioChangePercent]
    norm_num
  refine ⟨hc, ?_, ?_, ?_⟩ <;>
    · simp only [runScenarioOne, scenarioChangePercent, round2, jsRound]
      norm_num

/-! ### Claim C4 -/

/-- Claim C4, counterexample: the code flags the series `[50, 51, 52]` as
anomalous — the baseline `[50, 51]` has mean 50.5 and population standard
deviation 0.5, and the deviation `|52 - 50.5| = 1.5` exceeds `2 * 0.5 = 1` —
whereas the claim states this series is not flagged. -/
theorem c4_flat_series_counterexample :
    detectAnomalySeries [50, 51, 52] = true ∧
    detectAnomalySeries [50, 51, 52] ≠ false := by
  refine ⟨anomalous_flat, ?_⟩
  rw [anomalous_flat]
  exact fun h => Bool.noConfusion h

/-- Claim C4 (amended): on a per-period series of fewer than 3 points the
anomaly detector reports `false` without error; with at least 3 points it
flags an anomaly exactly when the distance of the last point from the mean
of the 2 immediately preceding points exceeds twice their population
standard deviation — in particular both `[50, 52, 90]` and `[50, 51, 52]`
are flagged anomalous. -/
theorem c4_anomaly_rule_amended :
    (∀ xs : List ℚ, xs.length < 3 → detectAnomalySeries xs = false) ∧
    (∀ xs : List ℚ, 3 ≤ xs.length →
      (detectAnomalySeries xs = true ↔
        2 * Real.sqrt (anomalyVariance xs) <
          |(anomalyRecent xs : ℝ) - (anomalyMean xs : ℝ)|)) ∧
    detectAnomalySeries [50, 52, 90] = true ∧
    detectAnomalySeries [50, 51, 52] = true := by
  refine ⟨?_, ?_, anomalous_fifty_ninety, anomalous_flat⟩
  · intro xs h
    rw [detectAnomalySeries, if_pos h]
  · intro xs h3
    have hlen := anomalyPrevious_length h3
    rw [detectAnomalySeries, if_neg (by omega), if_neg (by omega)]
    rw [two_sqrt_lt_abs_iff (by exact_mod_cast anomalyVariance_nonneg xs)]
    constructor
    · intro h
      by_cases hc : (anomalyRecent xs - anomalyMean xs) ^ 2 > 4 * anomalyVariance xs
      · exact_mod_cast hc
      · rw [if_neg hc] at h
        exact absurd h (by simp)
    · intro h
      rw [if_pos]
      exact_mod_cast h

/-- Claim C4, witness: the amended theorem applies at concrete inputs — the
2-point series `[10, 20]` reports not anomalous, and the equivalence holds
on `[50, 52, 90]`. -/
theorem c4_anomaly_rule_witness :
    detectAnomalySeries [(10 : ℚ), 20] = false ∧
    (detectAnomalySeries [50, 52, 90] = true ↔
      2 * Real.sqrt (anomalyVariance [50, 52, 90]) <
        |(anomalyRecent [50, 52, 90] : ℝ) - (anomalyMean [50, 52, 90] : ℝ)|) :=
  ⟨c4_anomaly_rule_amended.1 [10, 20] (by decide),
   c4_anomaly_rule_amended.2.1 [50, 52, 90] (by decide)⟩

/-! ### Claim C5 -/

/-- Claim C5, counterexample: on the exact linear series `[10, 20, 30, 40]`
the first forecast point evaluates the fitted line at index 4, predicting
`10 + 10 * 4 = 50` for period 5, not 60 as the claim states. -/
theorem c5_period_five_counterexample :
    ((forecastPoints [10, 20, 30, 40]).head?.map ForecastPoint.predictedValue) = some 50 ∧
    ((forecastPoints [10, 20, 30, 40]).head?.map ForecastPoint.predictedValue) ≠ some 60 := by
  have h : (forecastPoints [10, 20, 30, 40]).head? = some ⟨50, 1⟩ := by
    rw [forecastPoints, show List.range 4 = [0, 1, 2, 3] from rfl]
    simp only [List.map_cons, List.head?_cons, forecastSlope_linear, forecastIntercept_linear]
    norm_num [round2, jsRound]
  rw [h]
  refine ⟨rfl, ?_⟩
  simp only [Option.map_some, ne_eq, Option.some.injEq]
  norm_num

/-- Claim C5 (amended): on the exact linear series `[10, 20, 30, 40]` the
Forecast Engine fits slope 10 and intercept 10, predicts period 5 = 50 with
confidence 1.0, labels the trend increasing, and on every series the four
forecast confidences start at 1.0 and decay by 0.1 per step ahead
(floored at 0.6, rounded to 2 decimals): `[1, 0.9, 0.8, 0.7]`. -/
theorem c5_forecast_amended :
    forecastSlope [10, 20, 30, 40] = 10 ∧
    forecastIntercept [10, 20, 30, 40] = 10 ∧
    (forecastPoints [10, 20, 30, 40]).head? = some ⟨50, 1⟩ ∧
    forecastTrend [10, 20, 30, 40] = .increasing ∧
    ∀ values : List ℚ,
      (forecastPoints values).map ForecastPoint.confidence = [1, 0.9, 0.8, 0.7] := by
  refine ⟨forecastSlope_linear, forecastIntercept_linear, ?_, ?_, ?_⟩
  · rw [forecastPoints, show List.range 4 = [0, 1, 2, 3] from rfl]
    simp only [List.map_cons, List.head?_cons, forecastSlope_linear, forecastIntercept_linear]
    norm_num [round2, jsRound]
  · rw [forecastTrend, forecastSlope_linear]
    norm_num
  · intro values
    rw [forecastPoints, show List.range 4 = [0, 1, 2, 3] from rfl]
    simp only [List.map_cons, List.map_nil]
    norm_num [round2, jsRound]

/-! ### Claim C6 -/

/-- Claim C6, counterexample: the resolved state is not terminal — a resolved
alert updated with a body carrying `isResolved: false` goes back to
unresolved. -/
theorem c6_unresolve_counterexample :
    (markResolved (mkThresholdAlert "kpi-1" "dept-1" .threshold_breach .critical)
      "u1" 5).isResolved = true ∧
    (patchAlert (markResolved (mkThresholdAlert "kpi-1" "dept-1" .threshold_breach .critical)
      "u1" 5) ⟨none, some false⟩ "u2" 9).isResolved = false := by
  simp [markResolved, patchAlert, patchAlertUpdates, applyAlertUpdate, mkThresholdAlert]

/-- Claim C6 (amended): every alert the analytics service creates starts
unread and unresolved; mark-read sets `isRead` and leaves the resolution
fields unchanged, and repeated mark-read is idempotent; mark-resolved sets
`isResolved` and records the resolver identity and timestamp; the resolved
state is preserved by further mark-read and mark-resolved operations but is
not terminal: an update whose body sets `isResolved` to `false` returns the
alert to unresolved. -/
theorem c6_alert_lifecycle_amended :
    (∀ (k d : String) (t : AlertType) (s : Severity),
      (mkThresholdAlert k d t s).isRead = false ∧ (mkThresholdAlert k d t s).isResolved = false) ∧
    (∀ kpi : KPIRec,
      (mkAnomalyAlert kpi).isRead = false ∧ (mkAnomalyAlert kpi).isResolved = false) ∧
    (∀ (a : Alert) (u u' : String) (n n' : Nat),
      (markRead a u n).isRead = true ∧
      (markRead a u n).isResolved = a.isResolved ∧
      (markRead a u n).resolvedBy = a.resolvedBy ∧
      (markRead a u n).resolvedAt = a.resolvedAt ∧
      markRead (markRead a u n) u' n' = markRead a u n) ∧
    (∀ (a : Alert) (u : String) (n : Nat),
      (markResolved a u n).isResolved = true ∧
      (markResolved a u n).resolvedBy = some u ∧
      (markResolved a u n).resolvedAt = some n ∧
      (markResolved a u n).isRead = a.isRead) ∧
    (∀ (a : Alert) (u u' : String) (n n' : Nat),
      (markRead (markResolved a u n) u' n').isResolved = true ∧
      (markResolved (markResolved a u n) u' n').isResolved = true) ∧
    (∀ (a : Alert) (u : String) (n : Nat),
      (patchAlert a ⟨none, some false⟩ u n).isResolved = false) := by
  refine ⟨fun k d t s => ⟨rfl, rfl⟩, fun kpi => ⟨rfl, rfl⟩, ?_, ?_, ?_, ?_⟩ <;>
    · intros
      simp [markRead, markResolved, patchAlert, patchAlertUpdates, applyAlertUpdate]

/-! ### Claim C7 -/

/-- Claim C7, counterexample: on the anomalous series `[50, 52, 90]` with a
KPI lookup that fails, `detectAnomalies` returns `isAnomaly = true` yet
persists no alert. -/
theorem c7_missing_kpi_counterexample :
    detectAnomaliesRun none [50, 52, 90] [] = (true, []) := by
  rw [detectAnomaliesRun, anomalous_fifty_ninety]
  rfl

/-- Claim C7 (amended): whenever anomaly detection returns `isAnomaly = true`
and the KPI lookup succeeds, an alert of type `anomaly_detected` with
severity `medium` is appended to the alert store. -/
theorem c7_anomaly_alert_amended :
    ∀ (kpi : KPIRec) (series : List ℚ) (alerts : List Alert),
      (detectAnomaliesRun (some kpi) series alerts).1 = true →
        (detectAnomaliesRun (some kpi) series alerts).2 = alerts ++ [mkAnomalyAlert kpi] ∧
        (mkAnomalyAlert kpi).type = .anomaly_detected ∧
        (mkAnomalyAlert kpi).severity = .medium := by
  intro kpi series alerts h
  rcases hs : detectAnomalySeries series with _ | _
  · rw [detectAnomaliesRun] at h
    simp only [hs] at h
    exact absurd h (by simp)
  · rw [detectAnomaliesRun]
    simp only [hs]
    exact ⟨rfl, rfl, rfl⟩

/-- Claim C7, witness: the amended theorem applies to the concrete KPI and
the anomalous series `[50, 52, 90]`. -/
theorem c7_anomaly_alert_witness :
    (detectAnomaliesRun (some kpi0) [50, 52, 90] []).2 = [] ++ [mkAnomalyAlert kpi0] ∧
    (mkAnomalyAlert kpi0).type = .anomaly_detected ∧
    (mkAnomalyAlert kpi0).severity = .medium :=
  c7_anomaly_alert_amended kpi0 [50, 52, 90] []
    (by rw [detectAnomaliesRun, anomalous_fifty_ninety]; rfl)

/-! ### Claim C8 -/

/-- Claim C8, counterexample: with the alert store unavailable and a
submission of 30 that breaches the red threshold, `createAlert` raises
inside the try block, but `checkThresholds` returns normally with nothing
persisted — the failure does not propagate to the caller. -/
theorem c8_swallowed_counterexample :
    checkThresholdsBody (some kpi0) [target0] 30 false [] = .error "alert store unavailable" ∧
    checkThresholdsRun (some kpi0) [target0] 30 false [] = .ok [] := by
  constructor
  · rw [checkThresholdsBody, kpi0, target0, decision_at_thirty]
    rfl
  · rw [checkThresholdsRun, checkThresholdsBody, kpi0, target0, decision_at_thirty]
    rfl

/-- Claim C8 (amended): an alert-persistence failure during threshold
evaluation is caught and logged inside `checkThresholds` and does not
propagate — the evaluation always returns success to its caller, and when
the store is unavailable the alert list is left unchanged. -/
theorem c8_error_handling_amended :
    ∀ (kpi? : Option KPIRec) (targets : List TargetRec) (a : ℚ) (alerts : List Alert),
      (∀ storeOk : Bool, ∃ l, checkThresholdsRun kpi? targets a storeOk alerts = .ok l) ∧
      checkThresholdsRun kpi? targets a false alerts = .ok alerts := by
  intro kpi? targets a alerts
  constructor
  · intro storeOk
    rcases kpi? with _ | kpi
    · exact ⟨alerts, rfl⟩
    rcases targets with _ | ⟨tgt, rest⟩
    · exact ⟨alerts, rfl⟩
    rcases hd : checkThresholdsDecision a tgt.threshold tgt.targetValue with _ | ⟨t, s⟩
    · exact ⟨alerts, by rw [checkThresholdsRun, checkThresholdsBody, hd]⟩
    · rcases storeOk with _ | _
      · exact ⟨alerts, by rw [checkThresholdsRun, checkThresholdsBody, hd]; rfl⟩
      · exact ⟨alerts ++ [mkThresholdAlert kpi.id kpi.departmentId t s],
          by rw [checkThresholdsRun, checkThresholdsBody, hd]; rfl⟩
  · rcases kpi? with _ | kpi
    · rfl
    rcases targets with _ | ⟨tgt, rest⟩
    · rfl
    rcases hd : checkThresholdsDecision a tgt.threshold tgt.targetValue with _ | ⟨t, s⟩
    · rw [checkThresholdsRun, checkThresholdsBody, hd]
    · rw [checkThresholdsRun, checkThresholdsBody, hd]
      rfl

/-! ### Claim C9 -/

/-- Claim C9 (confirmed): for every positive target and threshold triple with
green at least amber at least red, the threshold evaluation is monotonic in
the actual value — increasing the actual never decreases the status band on
the worst-to-best scale critical breach, high breach, in band, target
exceeded. -/
theorem c9_threshold_monotone (t : ℚ) (th : Threshold) (a1 a2 : ℚ) (ht : 0 < t)
    (hga : th.amber ≤ th.green) (har : th.red ≤ th.amber) (h12 : a1 ≤ a2) :
    decisionRank (checkThresholdsDecision a1 th t) ≤
      decisionRank (checkThresholdsDecision a2 th t) := by
  have hc : th.red * t / 100 ≤ th.amber * t / 100 := by
    have := mul_le_mul_of_nonneg_right har ht.le
    linarith
  unfold checkThresholdsDecision
  split_ifs <;> simp only [decisionRank] <;> first | omega | linarith

/-- Claim C9, witness: the monotonicity theorem applies at target 100,
threshold triple green 80 / amber 60 / red 40, and actuals 50 and 70. -/
theorem c9_threshold_monotone_witness :
    (0 : ℚ) < 100 ∧ (60 : ℚ) ≤ 80 ∧ (40 : ℚ) ≤ 60 ∧ (50 : ℚ) ≤ 70 ∧
    decisionRank (checkThresholdsDecision 50 ⟨80, 60, 40⟩ 100) ≤
      decisionRank (checkThresholdsDecision 70 ⟨80, 60, 40⟩ 100) :=
  ⟨by norm_num, by norm_num, by norm_num, by norm_num,
   c9_threshold_monotone 100 ⟨80, 60, 40⟩ 50 70 (by norm_num) (by norm_num) (by norm_num)
     (by norm_num)⟩

/-! ### Claim C10 -/

/-- Claim C10 (confirmed): in the alert PATCH handler, whenever the body
contains `isResolved` — whatever its boolean value, including `false` — the
stored alert's `resolvedBy` is set to the requesting user and `resolvedAt`
to the current time; a body carrying only `isRead` leaves `resolvedBy`,
`resolvedAt` and `isResolved` unchanged. -/
theorem c10_patch_resolved_frame :
    ∀ (a : Alert) (uid : String) (now : Nat) (r? : Option Bool) (b r : Bool),
      ((patchAlert a ⟨r?, some b⟩ uid now).isResolved = b ∧
       (patchAlert a ⟨r?, some b⟩ uid now).resolvedBy = some uid ∧
       (patchAlert a ⟨r?, some b⟩ uid now).resolvedAt = some now) ∧
      ((patchAlert a ⟨some r, none⟩ uid now).isRead = r ∧
       (patchAlert a ⟨some r, none⟩ uid now).isResolved = a.isResolved ∧
       (patchAlert a ⟨some r, none⟩ uid now).resolvedBy = a.resolvedBy ∧
       (patchAlert a ⟨some r, none⟩ uid now).resolvedAt = a.resolvedAt) := by
  intro a uid now r? b r
  simp [patchAlert, patchAlertUpdates, applyAlertUpdate]

end LogicLeague
